import Mathlib

/-!
Verification of the FDMS link-validator pipeline
(src/streamlit_fdms_scrapper.py) against its specification.

The development shallowly embeds the script: the per-row scraping
function (URL guard, bounded retry loop, HTML classification), the
thread-pool batch loop, and the status-filtered result views.  Network
effects are made explicit: each row takes an oracle assigning to every
attempt index the outcome of the corresponding HTTP GET, and the
functions additionally return the trace of side effects (GET requests
issued and sleeps performed).  Exceptions are modelled with Except.
-/

namespace FDMS

set_option maxRecDepth 4000

/-! ## Python string helpers -/

/-- Python substring test: the expression needle in haystack on str. -/
def pyIn (needle haystack : String) : Bool :=
  decide (needle.data <:+: haystack.data)

/-- Python membership test of a single character in a string. -/
def pyCharIn (c : Char) (s : List Char) : Bool :=
  s.contains c

/-- ASCII whitespace stripped by Python str.strip with no arguments
(the model covers the ASCII whitespace characters; exotic Unicode
whitespace does not occur in the pages and markers involved). -/
def pyIsSpaceChar (c : Char) : Bool :=
  c = ' ' ∨ c = '\t' ∨ c = '\n' ∨ c = '\r' ∨ c = '\x0b' ∨ c = '\x0c'

/-- Python str.strip with no arguments: drop leading and trailing
whitespace. -/
def pyStrip (s : String) : String :=
  String.mk (((s.data.dropWhile pyIsSpaceChar).reverse.dropWhile pyIsSpaceChar).reverse)

/-- Every character of the string is ASCII (Python str.isascii). -/
def asciiOnly (s : String) : Bool :=
  s.data.all (fun c => c.val ≤ 127)

/-! ## Model of urllib.parse.urlparse (CPython 3.11)

Only the scheme and netloc components are modelled; the script reads no
other component.  The model follows urllib/parse.py: the WHATWG strip
of leading C0-control/space characters, removal of tab, carriage
return and newline, scheme extraction, netloc extraction up to the
first of the three delimiter characters, the mismatched-bracket check
(ValueError, Invalid IPv6 URL) and the bracketed-host validation that
delegates to the ipaddress module.  The NFKC check in checknetloc can
only raise for netlocs containing non-ASCII characters and is modelled
as passing; theorems that assume a successful parse therefore carry an
asciiOnly hypothesis where exactness matters. -/

/-- Characters of the C0-control-or-space set stripped from the front
of the URL. -/
def c0ControlOrSpace (c : Char) : Bool :=
  c.val ≤ 0x20

/-- Characters allowed in a URL scheme (letters, digits, plus, minus,
dot). -/
def schemeChar (c : Char) : Bool :=
  (('a' ≤ c ∧ c ≤ 'z') ∨ ('A' ≤ c ∧ c ≤ 'Z') ∨ ('0' ≤ c ∧ c ≤ '9')
    ∨ c = '+' ∨ c = '-' ∨ c = '.')

/-- ASCII letter (Python c.isascii() and c.isalpha() combined). -/
def isAsciiAlpha (c : Char) : Bool :=
  ('a' ≤ c ∧ c ≤ 'z') ∨ ('A' ≤ c ∧ c ≤ 'Z')

/-- ASCII decimal digit. -/
def isAsciiDigit (c : Char) : Bool :=
  '0' ≤ c ∧ c ≤ '9'

/-- ASCII hexadecimal digit (the HEX DIGITS set of ipaddress). -/
def isHexDigitChar (c : Char) : Bool :=
  isAsciiDigit c ∨ ('a' ≤ c ∧ c ≤ 'f') ∨ ('A' ≤ c ∧ c ≤ 'F')

/-- Numeric value of a list of ASCII decimal digits. -/
def digitsVal (l : List Char) : Nat :=
  l.foldl (fun n c => 10 * n + (c.toNat - '0'.toNat)) 0

/-- Validity of one dotted-quad octet, following
ipaddress.IPv4Address parse octet: nonempty, ASCII digits only, at
most three characters, no leading zero, value at most 255. -/
def isValidOctet (o : List Char) : Bool :=
  o ≠ [] ∧ o.all isAsciiDigit ∧ o.length ≤ 3 ∧
    (o = ['0'] ∨ o.headD '0' ≠ '0') ∧ digitsVal o ≤ 255

/-- Validity of an IPv4 address string, following
ipaddress.IPv4Address on strings: no slash, exactly four octets
separated by dots, each octet valid. -/
def isValidIPv4 (s : List Char) : Bool :=
  ¬ pyCharIn '/' s ∧
    (let octets := List.splitOn '.' s
     octets.length = 4 ∧ octets.all isValidOctet)

/-- Validity of one IPv6 hextet, following
ipaddress parse hextet: hex digits only, at most four characters, and
nonempty (the empty string fails the int conversion). -/
def isValidHextet (o : List Char) : Bool :=
  o ≠ [] ∧ o.all isHexDigitChar ∧ o.length ≤ 4

/-- Indices of empty parts strictly between the endpoints, the skip
candidates of ipaddress ip int from string for IPv6. -/
def interiorEmptyIdxs (parts : List (List Char)) : List Nat :=
  (List.range parts.length).filter
    (fun i => 0 < i ∧ i + 1 < parts.length ∧ parts.getD i ['x'] = [])

/-- Validity check for an IPv6 part list containing no skip (no
double colon): exactly eight nonempty valid hextets. -/
def v6NoSkipOk (parts : List (List Char)) : Bool :=
  decide (parts.length = 8) && !(parts.headD []).isEmpty
    && !(parts.getLastD []).isEmpty && parts.all isValidHextet

/-- Validity check for an IPv6 part list whose single interior empty
part sits at index idx (the double-colon skip), following the
parts-hi/parts-lo bookkeeping of ipaddress. -/
def v6SkipOk (parts : List (List Char)) (idx : Nat) : Bool :=
  (if (parts.headD ['x']).isEmpty then decide (idx = 1) else true) &&
  (if (parts.getLastD ['x']).isEmpty then decide (idx = parts.length - 2) else true) &&
  (let hi := if (parts.headD ['x']).isEmpty then idx - 1 else idx
   let lo := if (parts.getLastD ['x']).isEmpty then parts.length - idx - 2
             else parts.length - idx - 1
   decide (hi + lo ≤ 7) && (parts.take hi).all isValidHextet
     && (parts.drop (parts.length - lo)).all isValidHextet)

/-- Validity of the address part (scope id already removed) of an IPv6
address, following ipaddress ip int from string for IPv6. -/
def v6AddrOk (addr : List Char) : Bool :=
  !addr.isEmpty &&
  (let parts0 := List.splitOn ':' addr
   decide (3 ≤ parts0.length) &&
   (let lastHasDot := pyCharIn '.' (parts0.getLastD [])
    (!lastHasDot || isValidIPv4 (parts0.getLastD [])) &&
    (let parts := if lastHasDot then parts0.dropLast ++ [['0'], ['0']] else parts0
     decide (parts.length ≤ 9) &&
     (match interiorEmptyIdxs parts with
      | [] => v6NoSkipOk parts
      | [idx] => v6SkipOk parts idx
      | _ => false))))

/-- Validity of an IPv6 address string with optional scope id,
following ipaddress.IPv6Address on strings. -/
def isValidIPv6 (s : List Char) : Bool :=
  ¬ pyCharIn '/' s ∧
    (let addr := s.takeWhile (· ≠ '%')
     (pyCharIn '%' s →
        (let scope := (s.dropWhile (· ≠ '%')).drop 1
         scope ≠ [] ∧ ¬ pyCharIn '%' scope)) ∧
     v6AddrOk addr)

/-- Match of the IPvFuture pattern of urllib check bracketed host:
the letter v, one or more hex digits, a dot, then one or more
characters none of which is a newline. -/
def ipvFutureOk (h : List Char) : Bool :=
  match h with
  | 'v' :: t =>
      let hex := t.takeWhile isHexDigitChar
      let rest := t.drop hex.length
      hex ≠ [] ∧ rest.headD ' ' = '.' ∧ rest ≠ [] ∧
        (rest.drop 1) ≠ [] ∧ (rest.drop 1).all (· ≠ '\n')
  | _ => false

/-- Model of urllib check bracketed host, returning an error message
on failure exactly where CPython raises ValueError. -/
def checkBracketedHost (h : List Char) : Except String Unit :=
  match h with
  | 'v' :: _ =>
      if ipvFutureOk h then .ok () else .error "IPvFuture address is invalid"
  | _ =>
      if isValidIPv4 h then .error "An IPv4 address cannot be in brackets"
      else if isValidIPv6 h then .ok ()
      else .error "does not appear to be an IPv4 or IPv6 address"

/-- The scheme and netloc components of a parsed URL (the only
components the script consumes). -/
structure SplitResult where
  scheme : String
  netloc : String
deriving Repr, DecidableEq

/-- Model of urllib.parse.urlparse restricted to the scheme and netloc
components, with ValueError modelled as Except.error. -/
def urlparseE (url : String) : Except String SplitResult :=
  let u1 := (url.data.dropWhile c0ControlOrSpace).filter
    (fun c => ¬ (c = '\t' ∨ c = '\r' ∨ c = '\n'))
  let pre := u1.takeWhile (· ≠ ':')
  let schemeRest : List Char × List Char :=
    if pre.length < u1.length ∧ 0 < pre.length ∧ isAsciiAlpha (pre.headD ' ')
        ∧ pre.all schemeChar then
      (pre.map Char.toLower, u1.drop (pre.length + 1))
    else ([], u1)
  let scheme := schemeRest.1
  let rest := schemeRest.2
  if rest.take 2 = ['/', '/'] then
    let netloc := (rest.drop 2).takeWhile (fun c => ¬ (c = '/' ∨ c = '?' ∨ c = '#'))
    if (pyCharIn '[' netloc ∧ ¬ pyCharIn ']' netloc)
        ∨ (pyCharIn ']' netloc ∧ ¬ pyCharIn '[' netloc) then
      .error "Invalid IPv6 URL"
    else if pyCharIn '[' netloc ∧ pyCharIn ']' netloc then
      match checkBracketedHost (((netloc.dropWhile (· ≠ '[')).drop 1).takeWhile (· ≠ ']')) with
      | .ok () => .ok ⟨String.mk scheme, String.mk netloc⟩
      | .error e => .error e
    else .ok ⟨String.mk scheme, String.mk netloc⟩
  else .ok ⟨String.mk scheme, ""⟩

/-! ## Model of the fetched page and of BeautifulSoup

A page is abstracted by the list of its text nodes, in document order,
together with the first element matched by the CSS selector
.val-errors-block .col when one exists, itself abstracted by the list
of its descendant text nodes.  soup.get_text() is the concatenation of
the text nodes; get_text(strip=True) strips each node and concatenates
the nonempty remainders (bs4 all strings with strip).  The truthiness
test if val_error uses bs4 Tag bool, which is True for every tag (a
tag is non-None even if it has no contents), so only a missing match
is falsy. -/

/-- The first element matched by .val-errors-block .col, abstracted by
its descendant text nodes in order. -/
structure Tag where
  textNodes : List String
deriving Repr, DecidableEq

/-- A successfully fetched and parsed HTML document. -/
structure Page where
  /-- All text nodes of the document, in order. -/
  textNodes : List String
  /-- Result of soup.select-one on .val-errors-block .col. -/
  valErrorsCol : Option Tag
deriving Repr, DecidableEq

/-- Model of soup.get_text() on the whole document. -/
def soupGetText (p : Page) : String :=
  String.join p.textNodes

/-- Model of tag.get_text(strip=True): each text node stripped, empty
remainders skipped, the rest concatenated. -/
def getTextStrip (t : Tag) : String :=
  String.join ((t.textNodes.map pyStrip).filter (fun s => ¬ s = ""))

/-! ## The per-row scraping pipeline (scrape-url) -/

/-- Module-level constant SEARCH-TEXTS. -/
def SEARCH_TEXTS : List String := ["Invoice is valid", "Credit note is valid"]

/-- Module-level constant MAX-RETRIES. -/
def MAX_RETRIES : Nat := 3

/-- Module-level constant RETRY-DELAY, in seconds. -/
def RETRY_DELAY : Nat := 2

/-- Module-level constant MAX-THREADS. -/
def MAX_THREADS : Nat := 10

/-- One result dict produced by scrape-url; field names follow the
dict keys URL, Invoice Number, Status, Validation Error. -/
structure Row where
  url : String
  invoiceNumber : String
  status : String
  validationError : String
deriving Repr, DecidableEq

/-- Outcome of one requests.get call: either an HTTP response with its
status code and (parsed) body, or an exception raised at transport
level (connection failure, timeout, and so on). -/
inductive FetchOutcome where
  | response (statusCode : Nat) (page : Page)
  | transportError
deriving Repr, DecidableEq

/-- Observable side effects of a worker: one GET request issued, or
one time.sleep of the given number of seconds. -/
inductive Event where
  | fetch
  | sleep (seconds : Nat)
deriving Repr, DecidableEq

/-- Classification of a 200 response body, embedding the body of the
if response.status-code == 200 branch of scrape-url. -/
def classify200 (url invoiceNumber : String) (page : Page) : Row :=
  let text := soupGetText page
  let found := SEARCH_TEXTS.any (fun msg => pyIn msg text)
  if found then
    ⟨url, invoiceNumber, "Found", ""⟩
  else
    let errorText :=
      match page.valErrorsCol with
      | some tag => getTextStrip tag
      | none => "Validation error not found"
    ⟨url, invoiceNumber, "Not Found", errorText⟩

/-- The retry loop for in range(MAX-RETRIES) of scrape-url.  The
oracle gives the outcome of the GET issued on each attempt index; i is
the index of the next attempt and remaining the number of loop
iterations left.  Returns the result row together with the trace of
side effects.  A response returns from the loop at once; a transport
exception is caught, time.sleep(RETRY-DELAY) runs, and the loop
continues; an exhausted loop falls through to Max retries exceeded. -/
def fetchLoop (url invoiceNumber : String) (oracle : Nat → FetchOutcome) :
    Nat → Nat → Row × List Event
  | _, 0 => (⟨url, invoiceNumber, "Error", "Max retries exceeded"⟩, [])
  | i, remaining + 1 =>
    match oracle i with
    | .response code page =>
        if code = 200 then (classify200 url invoiceNumber page, [.fetch])
        else (⟨url, invoiceNumber, "Error", "HTTP " ++ toString code⟩, [.fetch])
    | .transportError =>
        let rest := fetchLoop url invoiceNumber oracle (i + 1) remaining
        (rest.1, .fetch :: .sleep RETRY_DELAY :: rest.2)

/-- Embedding of scrape-url.  The call to urlparse sits outside the
try block, so a ValueError raised there escapes the function; this is
modelled by the Except layer.  The returned event list records the GET
requests issued and the sleeps performed on behalf of this row. -/
def scrape_url (url invoiceNumber : String) (oracle : Nat → FetchOutcome) :
    Except String Row × List Event :=
  match urlparseE url with
  | .error e => (.error e, [])
  | .ok parsed =>
      if parsed.scheme = "" ∨ parsed.netloc = "" then
        (.ok ⟨url, invoiceNumber, "Error", "Invalid URL"⟩, [])
      else
        let res := fetchLoop url invoiceNumber oracle 0 MAX_RETRIES
        (.ok res.1, res.2)

/-! ## The batch orchestrator

The script submits one scrape-url future per input row to a thread
pool and appends future.result() in completion order, as delivered by
as-completed.  Completion order is a permutation of the row indices,
supplied here as an explicit parameter; oracles gives each row its own
fetch oracle.  future.result() re-raises any exception the worker
raised, the loop runs inside the outer try of the script, and partial
results are abandoned, so the model returns the first such exception
in completion order and no rows at all. -/

/-- The outcome of the worker for row i (first component of the pair:
the exception or the result dict). -/
def itemResult (rows : List (String × String)) (oracles : Nat → Nat → FetchOutcome)
    (i : Nat) : Except String Row :=
  (scrape_url (rows.getD i ("", "")).1 (rows.getD i ("", "")).2 (oracles i)).1

/-- The result row of the worker for row i when it raised no
exception (defaulting otherwise). -/
def itemRow (rows : List (String × String)) (oracles : Nat → Nat → FetchOutcome)
    (i : Nat) : Row :=
  ((itemResult rows oracles i).toOption).getD ⟨"", "", "", ""⟩

/-- Embedding of the ThreadPoolExecutor / as-completed collection
loop: results are appended in completion order; the first exception
re-raised by future.result() aborts the whole batch. -/
def runBatch (rows : List (String × String)) (oracles : Nat → Nat → FetchOutcome) :
    List Nat → Except String (List Row)
  | [] => .ok []
  | i :: rest =>
    match itemResult rows oracles i with
    | .error e => .error e
    | .ok r =>
      match runBatch rows oracles rest with
      | .error e => .error e
      | .ok rs => .ok (r :: rs)

/-! ## The status-filtered result views (tabs) -/

/-- The Valid tab: df[df[Status] == Valid]. -/
def tab_valid (df : List Row) : List Row :=
  df.filter (fun r => r.status = "Valid")

/-- The Not Valid tab: df[df[Status] == Not Valid] (the projection to
three columns does not change which rows appear). -/
def tab_not_valid (df : List Row) : List Row :=
  df.filter (fun r => r.status = "Not Valid")

/-- The Errors tab: df[df[Status] == Error] (projection ignored as
above). -/
def tab_errors (df : List Row) : List Row :=
  df.filter (fun r => r.status = "Error")

/-- Splitting of a character list at every whitespace character
(empty segments kept), the helper for the spec-side normalization. -/
def splitWS : List Char → List (List Char)
  | [] => [[]]
  | c :: rest =>
    if pyIsSpaceChar c then [] :: splitWS rest
    else
      match splitWS rest with
      | [] => [[c]]
      | g :: gs => (c :: g) :: gs

/-- The normalization the specification describes for the extracted
error detail, written from the words of the spec for comparison with
getTextStrip: collapse every internal whitespace run to a single space
and trim leading and trailing whitespace. -/
def specCollapseWS (s : String) : String :=
  String.intercalate " "
    (((splitWS s.data).map String.mk).filter (fun t => ¬ t = ""))

/-! ## Supporting lemmas -/

/-- Classification leaves the url and invoice number fields equal to
its arguments in every branch. -/
lemma classify200_fields (url invoiceNumber : String) (page : Page) :
    (classify200 url invoiceNumber page).url = url ∧
    (classify200 url invoiceNumber page).invoiceNumber = invoiceNumber := by
  by_cases h : SEARCH_TEXTS.any (fun msg => pyIn msg (soupGetText page)) = true
  · simp [classify200, h]
  · have h2 : SEARCH_TEXTS.any (fun msg => pyIn msg (soupGetText page)) = false := by
      simpa using h
    cases hcol : page.valErrorsCol <;> simp [classify200, h2, hcol]

/-- The retry loop leaves the url and invoice number fields equal to
its arguments in every branch. -/
lemma fetchLoop_fields (url invoiceNumber : String) (oracle : Nat → FetchOutcome) :
    ∀ (remaining i : Nat),
      ((fetchLoop url invoiceNumber oracle i remaining).1).url = url ∧
      ((fetchLoop url invoiceNumber oracle i remaining).1).invoiceNumber = invoiceNumber
  | 0, _ => ⟨rfl, rfl⟩
  | remaining + 1, i => by
    simp only [fetchLoop]
    cases h : oracle i with
    | response code page =>
        by_cases h2 : code = 200 <;> simp [h2, classify200_fields]
    | transportError =>
        simpa using fetchLoop_fields url invoiceNumber oracle remaining (i + 1)

/-- When every attempt raises at transport level, the retry loop with
remaining iterations left issues remaining GETs, each followed by the
fixed sleep, and falls through to Max retries exceeded. -/
lemma fetchLoop_allTrans (url invoiceNumber : String) (oracle : Nat → FetchOutcome)
    (hall : ∀ i, oracle i = .transportError) :
    ∀ (remaining i : Nat),
      fetchLoop url invoiceNumber oracle i remaining =
        (⟨url, invoiceNumber, "Error", "Max retries exceeded"⟩,
          (List.replicate remaining [Event.fetch, Event.sleep RETRY_DELAY]).flatten)
  | 0, _ => rfl
  | remaining + 1, i => by
    simp only [fetchLoop, hall i]
    simp [fetchLoop_allTrans url invoiceNumber oracle hall remaining (i + 1),
      List.replicate_succ]

/-- If the first k attempts from index i raise at transport level and
attempt i + k returns an HTTP response, the retry loop stops at that
response: k fetch-and-sleep pairs, one final GET, and nothing after
it. -/
lemma fetchLoop_respAt (url invoiceNumber : String) (oracle : Nat → FetchOutcome)
    (code : Nat) (page : Page) :
    ∀ (k i remaining : Nat), k < remaining →
      (∀ j, j < k → oracle (i + j) = .transportError) →
      oracle (i + k) = .response code page →
      fetchLoop url invoiceNumber oracle i remaining =
        ((if code = 200 then classify200 url invoiceNumber page
          else ⟨url, invoiceNumber, "Error", "HTTP " ++ toString code⟩),
         (List.replicate k [Event.fetch, Event.sleep RETRY_DELAY]).flatten ++ [Event.fetch]) := by
  intro k
  induction k with
  | zero =>
    intro i remaining hlt _ hresp
    cases remaining with
    | zero => omega
    | succ r =>
      rw [Nat.add_zero] at hresp
      simp only [fetchLoop, hresp]
      by_cases h2 : code = 200 <;> simp [h2]
  | succ k ih =>
    intro i remaining hlt hpre hresp
    cases remaining with
    | zero => omega
    | succ r =>
      have h0 : oracle i = .transportError := by simpa using hpre 0 (by omega)
      simp only [fetchLoop, h0]
      have hrec := ih (i + 1) r (by omega)
        (fun j hj => by
          have := hpre (j + 1) (by omega)
          rwa [show i + (j + 1) = i + 1 + j by omega] at this)
        (by rwa [show i + (k + 1) = i + 1 + k by omega] at hresp)
      simp [hrec, List.replicate_succ]

/-- A row whose URL parses produces a result (the worker raises no
exception). -/
lemma scrape_isOk (url invoiceNumber : String) (oracle : Nat → FetchOutcome)
    (p : SplitResult) (hp : urlparseE url = .ok p) :
    ∃ r, (scrape_url url invoiceNumber oracle).1 = .ok r := by
  unfold scrape_url
  rw [hp]
  by_cases h : p.scheme = "" ∨ p.netloc = ""
  · exact ⟨⟨url, invoiceNumber, "Error", "Invalid URL"⟩, by simp [h]⟩
  · exact ⟨(fetchLoop url invoiceNumber oracle 0 MAX_RETRIES).1, by simp [h]⟩

/-- When every worker in the completion order returns normally, the
batch loop collects exactly the per-row results, in completion
order. -/
lemma runBatch_eq_map (rows : List (String × String)) (oracles : Nat → Nat → FetchOutcome) :
    ∀ order : List Nat, (∀ i ∈ order, ∃ r, itemResult rows oracles i = .ok r) →
      runBatch rows oracles order = .ok (order.map (itemRow rows oracles))
  | [], _ => rfl
  | i :: rest, h => by
    obtain ⟨r, hr⟩ := h i (List.mem_cons_self i rest)
    have hrest := runBatch_eq_map rows oracles rest
      (fun j hj => h j (List.mem_cons_of_mem _ hj))
    have hrow : itemRow rows oracles i = r := by
      simp [itemRow, hr, Except.toOption]
    simp [runBatch, hr, hrest, hrow]

/-! ## Claim C4: malformed URLs -/

/-- C4: for every URL string that urlparse splits into components with
an empty scheme or an empty netloc, scrape-url answers status Error
with detail Invalid URL and issues no network request (the event trace
is empty). -/
theorem invalid_url_no_fetch (url invoiceNumber : String) (oracle : Nat → FetchOutcome)
    (p : SplitResult) (hascii : asciiOnly url = true) (hp : urlparseE url = .ok p)
    (h : p.scheme = "" ∨ p.netloc = "") :
    scrape_url url invoiceNumber oracle =
      (.ok ⟨url, invoiceNumber, "Error", "Invalid URL"⟩, []) := by
  unfold scrape_url
  rw [hp]
  simp [h]

/-- Witness for invalid-url-no-fetch at the example URL of the spec, a
URL with no scheme. -/
theorem invalid_url_no_fetch_w :
    scrape_url "fdms.zimra.co.zw/x" "INV001" (fun _ => .transportError) =
      (.ok ⟨"fdms.zimra.co.zw/x", "INV001", "Error", "Invalid URL"⟩, []) :=
  invalid_url_no_fetch "fdms.zimra.co.zw/x" "INV001" (fun _ => .transportError)
    ⟨"", ""⟩ (by decide) rfl (Or.inl rfl)

/-! ## Claim C7: success markers -/

/-- C7: if the extracted visible text of a fetched page contains one
of the success markers as an exact substring, classification yields
status Found with empty error detail, whatever else the page
contains. -/
theorem marker_yields_found (url invoiceNumber : String) (page : Page)
    (h : SEARCH_TEXTS.any (fun msg => pyIn msg (soupGetText page)) = true) :
    classify200 url invoiceNumber page = ⟨url, invoiceNumber, "Found", ""⟩ := by
  simp [classify200, h]

/-- Witness for marker-yields-found on a page containing the invoice
marker among other content, including a populated error container. -/
theorem marker_yields_found_w :
    classify200 "https://fdms.zimra.co.zw/x" "INV001"
        ⟨["junk ", "Invoice is valid", " more junk"], some ⟨["Some error"]⟩⟩ =
      ⟨"https://fdms.zimra.co.zw/x", "INV001", "Found", ""⟩ :=
  marker_yields_found "https://fdms.zimra.co.zw/x" "INV001"
    ⟨["junk ", "Invoice is valid", " more junk"], some ⟨["Some error"]⟩⟩ (by decide)

/-! ## Claim C8: error detail extraction -/

/-- C8 counterexample: get-text(strip=True) trims the ends of each
text node but does not collapse internal whitespace, so a container
text with an internal double space keeps it, while the normalization
the claim describes would collapse it. -/
theorem detail_not_collapsed :
    classify200 "https://u" "1"
        ⟨["no marker"], some ⟨[" Document  already processed "]⟩⟩ =
      ⟨"https://u", "1", "Not Found", "Document  already processed"⟩ ∧
    specCollapseWS " Document  already processed " = "Document already processed" ∧
    ("Document  already processed" : String) ≠ "Document already processed" := by
  exact ⟨by decide, by decide, by decide⟩

/-- C8 as amended: with no success marker and a present error
container, the detail is the concatenation of the container text nodes
each stripped of leading and trailing whitespace (whitespace-only
nodes dropped); internal whitespace is preserved. -/
theorem notfound_detail_stripped (url invoiceNumber : String) (page : Page) (tag : Tag)
    (hno : SEARCH_TEXTS.any (fun msg => pyIn msg (soupGetText page)) = false)
    (hcol : page.valErrorsCol = some tag) (hne : getTextStrip tag ≠ "") :
    classify200 url invoiceNumber page =
      ⟨url, invoiceNumber, "Not Found", getTextStrip tag⟩ := by
  simp [classify200, hno, hcol]

/-- Witness for notfound-detail-stripped at the example of the spec:
container text with single internal spaces, where stripping the node
gives the expected detail. -/
theorem notfound_detail_stripped_w :
    classify200 "https://u" "1"
        ⟨["no marker"], some ⟨[" Document already processed "]⟩⟩ =
      ⟨"https://u", "1", "Not Found",
        getTextStrip ⟨[" Document already processed "]⟩⟩ :=
  notfound_detail_stripped "https://u" "1"
    ⟨["no marker"], some ⟨[" Document already processed "]⟩⟩
    ⟨[" Document already processed "]⟩ (by decide) rfl (by decide)

/-! ## Claim C9: the sentinel detail -/

/-- C9 counterexample: a present error container whose text is
whitespace-only yields an empty error detail, not the sentinel, so the
detail of a NotFound row can be the empty string. -/
theorem empty_container_empty_detail :
    classify200 "https://u" "1" ⟨["plain text"], some ⟨[" "]⟩⟩ =
      ⟨"https://u", "1", "Not Found", ""⟩ ∧
    ("" : String) ≠ "Validation error not found" := by
  exact ⟨by decide, by decide⟩

/-- C9 as amended: with no success marker, a missing error container
yields the sentinel detail, while a present container with empty or
whitespace-only text yields the empty string (the sentinel marks only
the missing-container case). -/
theorem absent_container_sentinel (url invoiceNumber : String) (page : Page)
    (hno : SEARCH_TEXTS.any (fun msg => pyIn msg (soupGetText page)) = false) :
    (page.valErrorsCol = none →
      classify200 url invoiceNumber page =
        ⟨url, invoiceNumber, "Not Found", "Validation error not found"⟩) ∧
    (∀ tag, page.valErrorsCol = some tag →
      (tag.textNodes.map pyStrip).all (fun s => s = "") →
      classify200 url invoiceNumber page = ⟨url, invoiceNumber, "Not Found", ""⟩) := by
  constructor
  · intro hnone
    simp [classify200, hno, hnone]
  · intro tag hsome hws
    have hfilter : (tag.textNodes.map pyStrip).filter (fun s => ¬ s = "") = [] := by
      rw [List.filter_eq_nil_iff]
      intro a ha
      have := List.all_eq_true.mp hws a ha
      simp_all
    have hempty : getTextStrip tag = "" := by
      unfold getTextStrip
      rw [hfilter]
      rfl
    simp [classify200, hno, hsome, hempty]

/-- Witness for absent-container-sentinel on a page with no marker and
no error container. -/
theorem absent_container_sentinel_w :
    ((Page.mk ["plain text"] none).valErrorsCol = none →
      classify200 "https://u" "1" ⟨["plain text"], none⟩ =
        ⟨"https://u", "1", "Not Found", "Validation error not found"⟩) ∧
    (∀ tag, (Page.mk ["plain text"] none).valErrorsCol = some tag →
      (tag.textNodes.map pyStrip).all (fun s => s = "") →
      classify200 "https://u" "1" ⟨["plain text"], none⟩ =
        ⟨"https://u", "1", "Not Found", ""⟩) :=
  absent_container_sentinel "https://u" "1" ⟨["plain text"], none⟩ (by decide)

/-! ## Claim C5: exhausted retries -/

/-- C5 counterexample: with a transport failure on every attempt the
worker makes three GETs but sleeps after every failure, the last
included, so the trace ends with a sleep rather than with the third
fetch. -/
theorem sleep_after_last_attempt :
    scrape_url "https://fdms.zimra.co.zw/x" "INV001" (fun _ => .transportError) =
      (.ok ⟨"https://fdms.zimra.co.zw/x", "INV001", "Error", "Max retries exceeded"⟩,
        [.fetch, .sleep RETRY_DELAY, .fetch, .sleep RETRY_DELAY,
         .fetch, .sleep RETRY_DELAY]) ∧
    ([Event.fetch, .sleep RETRY_DELAY, .fetch, .sleep RETRY_DELAY,
      .fetch, .sleep RETRY_DELAY].getLast? = some (.sleep RETRY_DELAY)) := by
  exact ⟨rfl, rfl⟩

/-- C5 as amended: on a well-formed URL whose every fetch attempt
fails at transport level, scrape-url issues exactly three GETs, each
failed attempt followed by the fixed delay (the last included), and
returns status Error with detail Max retries exceeded. -/
theorem all_transport_three_attempts (url invoiceNumber : String)
    (oracle : Nat → FetchOutcome) (p : SplitResult)
    (hascii : asciiOnly url = true) (hp : urlparseE url = .ok p)
    (hs : p.scheme ≠ "") (hn : p.netloc ≠ "")
    (hall : ∀ i, oracle i = .transportError) :
    scrape_url url invoiceNumber oracle =
      (.ok ⟨url, invoiceNumber, "Error", "Max retries exceeded"⟩,
        [.fetch, .sleep RETRY_DELAY, .fetch, .sleep RETRY_DELAY,
         .fetch, .sleep RETRY_DELAY]) := by
  unfold scrape_url
  rw [hp]
  have hcond : ¬ (p.scheme = "" ∨ p.netloc = "") := by tauto
  simp only [hcond, if_false, reduceCtorEq]
  rw [fetchLoop_allTrans url invoiceNumber oracle hall MAX_RETRIES 0]
  rfl

/-- Witness for all-transport-three-attempts at a concrete well-formed
URL. -/
theorem all_transport_three_attempts_w :
    scrape_url "https://fdms.zimra.co.zw/x" "INV002" (fun _ => .transportError) =
      (.ok ⟨"https://fdms.zimra.co.zw/x", "INV002", "Error", "Max retries exceeded"⟩,
        [.fetch, .sleep RETRY_DELAY, .fetch, .sleep RETRY_DELAY,
         .fetch, .sleep RETRY_DELAY]) :=
  all_transport_three_attempts "https://fdms.zimra.co.zw/x" "INV002"
    (fun _ => .transportError) ⟨"https", "fdms.zimra.co.zw"⟩
    (by decide) rfl (by decide) (by decide) (fun _ => rfl)

/-! ## Claim C6: no retry on HTTP responses -/

/-- C6: an attempt that yields an HTTP response (200 or not) ends the
loop at once: after k transport failures and a response on attempt k,
the trace holds exactly k fetch-and-sleep pairs and one final GET with
nothing after it, and a 404 response yields status Error with detail
HTTP 404, which contains 404. -/
theorem response_returns_immediately (url invoiceNumber : String)
    (oracle : Nat → FetchOutcome) (p : SplitResult) (k code : Nat) (page : Page)
    (hascii : asciiOnly url = true) (hp : urlparseE url = .ok p)
    (hs : p.scheme ≠ "") (hn : p.netloc ≠ "")
    (hk : k < MAX_RETRIES) (hpre : ∀ j, j < k → oracle j = .transportError)
    (hresp : oracle k = .response code page) :
    (scrape_url url invoiceNumber oracle).2 =
      (List.replicate k [Event.fetch, Event.sleep RETRY_DELAY]).flatten
        ++ [Event.fetch] ∧
    (code = 404 →
      (scrape_url url invoiceNumber oracle).1 =
        .ok ⟨url, invoiceNumber, "Error", "HTTP 404"⟩ ∧
      pyIn "404" "HTTP 404" = true) := by
  have hloop := fetchLoop_respAt url invoiceNumber oracle code page k 0 MAX_RETRIES hk
    (fun j hj => by simpa using hpre j hj) (by simpa using hresp)
  have hcond : ¬ (p.scheme = "" ∨ p.netloc = "") := by tauto
  unfold scrape_url
  rw [hp]
  simp only [hcond, if_false, reduceCtorEq]
  rw [hloop]
  refine ⟨rfl, fun h404 => ⟨?_, by decide⟩⟩
  subst h404
  rfl

/-- Witness for response-returns-immediately: a 404 on the first
attempt, a single GET, no sleep, detail HTTP 404. -/
theorem response_returns_immediately_w :
    (scrape_url "https://fdms.zimra.co.zw/x" "INV003"
        (fun _ => .response 404 ⟨[], none⟩)).2 =
      (List.replicate 0 [Event.fetch, Event.sleep RETRY_DELAY]).flatten
        ++ [Event.fetch] ∧
    ((404 : Nat) = 404 →
      (scrape_url "https://fdms.zimra.co.zw/x" "INV003"
          (fun _ => .response 404 ⟨[], none⟩)).1 =
        .ok ⟨"https://fdms.zimra.co.zw/x", "INV003", "Error", "HTTP 404"⟩ ∧
      pyIn "404" "HTTP 404" = true) :=
  response_returns_immediately "https://fdms.zimra.co.zw/x" "INV003"
    (fun _ => .response 404 ⟨[], none⟩) ⟨"https", "fdms.zimra.co.zw"⟩ 0 404 ⟨[], none⟩
    (by decide) rfl (by decide) (by decide) (by decide)
    (fun j hj => absurd hj (Nat.not_lt_zero j)) rfl

/-! ## Claim C3: the status-filtered views -/

/-- C3 (code bug): the pipeline produces rows with status Found, Not
Found or Error, but the Valid and Not Valid tabs filter on the
statuses Valid and Not Valid, which the pipeline never emits; a Found
row therefore appears in none of the three filtered views, so their
union misses it. -/
theorem tabs_drop_found_rows :
    (scrape_url "https://fdms.zimra.co.zw/x" "INV001"
        (fun _ => .response 200 ⟨["Invoice is valid"], none⟩)).1 =
      .ok ⟨"https://fdms.zimra.co.zw/x", "INV001", "Found", ""⟩ ∧
    tab_valid [⟨"https://fdms.zimra.co.zw/x", "INV001", "Found", ""⟩] = [] ∧
    tab_not_valid [⟨"https://fdms.zimra.co.zw/x", "INV001", "Found", ""⟩] = [] ∧
    tab_errors [⟨"https://fdms.zimra.co.zw/x", "INV001", "Found", ""⟩] = [] ∧
    ([(⟨"https://fdms.zimra.co.zw/x", "INV001", "Found", ""⟩ : Row)] ≠ []) := by
  exact ⟨rfl, rfl, rfl, rfl, by decide⟩

/-! ## Claim C10: input fields pass through unchanged -/

/-- C10: whichever branch produces it, a result returned by scrape-url
carries the input url in its URL field and the input invoice number in
its Invoice Number field, unchanged. -/
theorem result_preserves_inputs (url invoiceNumber : String)
    (oracle : Nat → FetchOutcome) (r : Row)
    (h : (scrape_url url invoiceNumber oracle).1 = .ok r) :
    r.url = url ∧ r.invoiceNumber = invoiceNumber := by
  unfold scrape_url at h
  cases hp : urlparseE url with
  | error e => rw [hp] at h; simp at h
  | ok p =>
    rw [hp] at h
    by_cases hc : p.scheme = "" ∨ p.netloc = ""
    · simp only [hc, if_true] at h
      simp only [Except.ok.injEq] at h
      subst h
      exact ⟨rfl, rfl⟩
    · simp only [hc, if_false] at h
      simp only [Except.ok.injEq] at h
      subst h
      exact fetchLoop_fields url invoiceNumber oracle MAX_RETRIES 0

/-- Witness for result-preserves-inputs on the HTTP-error branch. -/
theorem result_preserves_inputs_w :
    (⟨"https://fdms.zimra.co.zw/x", "INV004", "Error", "HTTP 500"⟩ : Row).url =
      "https://fdms.zimra.co.zw/x" ∧
    (⟨"https://fdms.zimra.co.zw/x", "INV004", "Error", "HTTP 500"⟩ : Row).invoiceNumber =
      "INV004" :=
  result_preserves_inputs "https://fdms.zimra.co.zw/x" "INV004"
    (fun _ => .response 500 ⟨[], none⟩)
    ⟨"https://fdms.zimra.co.zw/x", "INV004", "Error", "HTTP 500"⟩ rfl

/-! ## Claim C1: one result per item, no crash -/

/-- C1 counterexample: on the single-item batch whose URL makes
urlparse raise ValueError (a bracketed netloc with no closing
bracket), the worker raises, future.result() re-raises, and the batch
aborts with the exception instead of returning one Error row. -/
theorem runBatch_crash_on_parse_exc :
    runBatch [("http://[", "INV001")] (fun _ _ => .transportError) [0] =
      .error "Invalid IPv6 URL" := rfl

/-- C1 as amended: when every URL in the completion order parses
without raising, the batch yields exactly one result per input item
(fetch-level failures are caught inside the worker); an exception
escaping a worker, which only urlparse can raise, instead aborts the
whole batch. -/
theorem runBatch_length_of_parses (rows : List (String × String))
    (oracles : Nat → Nat → FetchOutcome) (order : List Nat)
    (hperm : order.Perm (List.range rows.length))
    (hascii : ∀ i ∈ order, asciiOnly (rows.getD i ("", "")).1 = true)
    (hok : ∀ i ∈ order, ∃ p, urlparseE (rows.getD i ("", "")).1 = .ok p) :
    ∃ out : List Row, runBatch rows oracles order = .ok out ∧
      out.length = rows.length := by
  have h : ∀ i ∈ order, ∃ r, itemResult rows oracles i = .ok r := by
    intro i hi
    obtain ⟨p, hp⟩ := hok i hi
    exact scrape_isOk _ _ _ p hp
  refine ⟨_, runBatch_eq_map rows oracles order h, ?_⟩
  rw [List.length_map, hperm.length_eq, List.length_range]

/-- Witness for runBatch-length-of-parses on a one-item batch whose
every fetch attempt fails at transport level. -/
theorem runBatch_length_of_parses_w :
    ∃ out : List Row,
      runBatch [("https://fdms.zimra.co.zw/x", "INV001")]
          (fun _ _ => .transportError) [0] = .ok out ∧
      out.length = 1 :=
  runBatch_length_of_parses [("https://fdms.zimra.co.zw/x", "INV001")]
    (fun _ _ => .transportError) [0] (by decide) (by decide)
    (by
      intro i hi
      simp only [List.mem_singleton] at hi
      subst hi
      exact ⟨⟨"https", "fdms.zimra.co.zw"⟩, rfl⟩)

/-! ## Claim C2: output order -/

/-- C2 counterexample: with completion order reversed on a two-item
batch, the first returned result carries the url of input row 1, not
of input row 0, so result i does not correspond to input row i. -/
theorem runBatch_order_mismatch :
    runBatch [("a", "1"), ("b", "2")] (fun _ _ => .transportError) [1, 0] =
      .ok [⟨"b", "2", "Error", "Invalid URL"⟩, ⟨"a", "1", "Error", "Invalid URL"⟩] ∧
    (⟨"b", "2", "Error", "Invalid URL"⟩ : Row).url ≠ ("a", "1").1 := by
  exact ⟨rfl, by decide⟩

/-- C2 as amended: the batch returns one result per item in worker
completion order (the i-th output is the result of the i-th completed
item, not of input row i), and that output is a permutation of the
input-ordered result list. -/
theorem runBatch_completion_order (rows : List (String × String))
    (oracles : Nat → Nat → FetchOutcome) (order : List Nat)
    (hperm : order.Perm (List.range rows.length))
    (hascii : ∀ i ∈ order, asciiOnly (rows.getD i ("", "")).1 = true)
    (hok : ∀ i ∈ order, ∃ r, itemResult rows oracles i = .ok r) :
    runBatch rows oracles order = .ok (order.map (itemRow rows oracles)) ∧
    (order.map (itemRow rows oracles)).Perm
      ((List.range rows.length).map (itemRow rows oracles)) :=
  ⟨runBatch_eq_map rows oracles order hok, hperm.map _⟩

/-- Witness for runBatch-completion-order on the two-item batch with
reversed completion order. -/
theorem runBatch_completion_order_w :
    runBatch [("a", "1"), ("b", "2")] (fun _ _ => .transportError) [1, 0] =
      .ok ([1, 0].map (itemRow [("a", "1"), ("b", "2")] (fun _ _ => .transportError))) ∧
    ([1, 0].map (itemRow [("a", "1"), ("b", "2")] (fun _ _ => .transportError))).Perm
      ((List.range ([("a", "1"), ("b", "2")] : List (String × String)).length).map
        (itemRow [("a", "1"), ("b", "2")] (fun _ _ => .transportError))) :=
  runBatch_completion_order [("a", "1"), ("b", "2")] (fun _ _ => .transportError) [1, 0]
    (by decide) (by decide)
    (by
      intro i hi
      simp only [List.mem_cons, List.not_mem_nil, or_false] at hi
      rcases hi with h1 | h0
      · subst h1
        exact ⟨⟨"b", "2", "Error", "Invalid URL"⟩, rfl⟩
      · subst h0
        exact ⟨⟨"a", "1", "Error", "Invalid URL"⟩, rfl⟩)

end FDMS
